import Mathlib

/-!
# Verification of the BacBo signal bot's core logic

Shallow embedding of the betting state machine, scoreboard, notification
bookkeeping and driver loop of `src/main.py`, together with theorems that
settle the specification's claims about them.

Modelling conventions:
* Game outcomes `'P'`, `'B'`, `'T'` become the inductive `Outcome`.
* The module-level `scoreboard` and the Telegram side effects are threaded
  explicitly through a `World` record: the scoreboard, a fresh message-id
  counter (Telegram message ids are positive, so ids start at 1), and an
  append-only log of notification events.
* `send_telegram_message` / `bot.delete_message` always succeed in the model
  and return the freshly allocated id; Python truthiness checks on message ids
  (`if self.prepare_message_id:`) are rendered as `getD 0 ≠ 0`.
* Python list slices `xs[-k:]` are rendered by `pyTail` (with the `[-0:]` =
  whole-list corner case preserved), `pattern[:len-1]` by `List.take`.
-/

inductive Outcome where
  | P
  | B
  | T
deriving DecidableEq, Repr

/-- One entry of the strategy catalog: `{'pattern': [...], 'bet': ...}`. -/
structure Strategy where
  pattern : List Outcome
  bet : Outcome
deriving DecidableEq, Repr

/-- The `Scoreboard` class: four cumulative counters. -/
structure Scoreboard where
  wins : Nat
  losses : Nat
  consecutive_wins : Nat
  total_attempts : Nat
deriving DecidableEq, Repr

/-- `Scoreboard.__init__`: all counters start at zero. -/
def Scoreboard.init : Scoreboard :=
  { wins := 0, losses := 0, consecutive_wins := 0, total_attempts := 0 }

/-- `Scoreboard.record_win`. -/
def Scoreboard.record_win (sb : Scoreboard) : Scoreboard :=
  { sb with
    wins := sb.wins + 1
    consecutive_wins := sb.consecutive_wins + 1
    total_attempts := sb.total_attempts + 1 }

/-- `Scoreboard.record_loss`. -/
def Scoreboard.record_loss (sb : Scoreboard) : Scoreboard :=
  { sb with
    losses := sb.losses + 1
    total_attempts := sb.total_attempts + 1
    consecutive_wins := 0 }

/-- `round(x, 2)` over exact rationals: round to two decimal places. -/
def round2 (q : ℚ) : ℚ := ((round (q * 100) : ℤ) : ℚ) / 100

/-- `Scoreboard.calculate_assertivity_rate`, with the floating-point
arithmetic idealized over the rationals. -/
def Scoreboard.calculate_assertivity_rate (sb : Scoreboard) : ℚ :=
  if sb.total_attempts = 0 then 0
  else round2 ((sb.wins : ℚ) / (sb.total_attempts : ℚ) * 100)

/-- Observable notification events, in the order they are issued.  Each send
carries the message id the Notifier returned for it. -/
inductive Event where
  | sendPrepare (mid : Nat)
  | deleteMessage (mid : Nat)
  | sendEntry (mid : Nat) (bet : Outcome)
  | sendGale (mid : Nat) (attempt : Nat)
  | sendWinSticker (mid : Nat)
  | sendLossSticker (mid : Nat)
  | sendScoreboard (mid : Nat) (sb : Scoreboard)
deriving DecidableEq, Repr

/-- The ambient mutable context of the strategy: the module-level scoreboard
plus the Telegram channel, modelled as a fresh-id counter and an event log. -/
structure World where
  sb : Scoreboard
  nextId : Nat
  log : List Event
deriving DecidableEq, Repr

def World.init : World := { sb := Scoreboard.init, nextId := 1, log := [] }

/-- A successful `send_telegram_message`: append the event, return its id. -/
def World.send (w : World) (mk : Nat → Event) : World × Nat :=
  ({ w with nextId := w.nextId + 1, log := w.log ++ [mk w.nextId] }, w.nextId)

/-- A successful `bot.delete_message`. -/
def World.deleteMsg (w : World) (mid : Nat) : World :=
  { w with log := w.log ++ [Event.deleteMessage mid] }

/-- The mutable fields of the `BettingStrategy` class (first definition in
`src/main.py`, lines 147-270). -/
structure BettingStrategy where
  strategies : List Strategy
  max_gales : Nat
  is_entry_allowed : Bool
  is_green : Bool
  is_gale_active : Bool
  is_red : Bool
  current_strategy : Option Strategy
  current_bet : Option Outcome
  gale_count : Nat
  prepare_message_sent : Bool
  prepare_message_id : Option Nat
  gale_message_ids : List Nat
  wait_after_gale : Bool
  stop_requested : Bool
deriving DecidableEq, Repr

/-- `BettingStrategy.__init__(strategies, max_gales)`. -/
def BettingStrategy.init (strats : List Strategy) (mg : Nat) : BettingStrategy :=
  { strategies := strats
    max_gales := mg
    is_entry_allowed := true
    is_green := false
    is_gale_active := false
    is_red := false
    current_strategy := none
    current_bet := none
    gale_count := 0
    prepare_message_sent := false
    prepare_message_id := none
    gale_message_ids := []
    wait_after_gale := false
    stop_requested := false }

/-- Python slice `l[-k:]`.  For `k = 0` Python reads `l[-0:] = l[0:] = l`;
for `k ≥ 1` it is the last `min k l.length` elements. -/
def pyTail (l : List Outcome) (k : Nat) : List Outcome :=
  if k = 0 then l else l.drop (l.length - k)

/-- `BettingStrategy.delete_gale_messages`: delete every tracked gale message
and clear the list. -/
def BettingStrategy.delete_gale_messages (s : BettingStrategy) (w : World) :
    BettingStrategy × World :=
  ({ s with gale_message_ids := [] },
   { w with log := w.log ++ s.gale_message_ids.map Event.deleteMessage })

/-- `BettingStrategy.reset_state(wait_after_gale)`. -/
def BettingStrategy.reset_state (s : BettingStrategy) (wag : Bool) : BettingStrategy :=
  { s with
    is_entry_allowed := true
    is_green := false
    is_gale_active := false
    is_red := false
    current_strategy := none
    current_bet := none
    gale_count := 0
    prepare_message_sent := false
    prepare_message_id := none
    gale_message_ids := []
    wait_after_gale := wag }

/-- The first `if` of the entry loop body (main.py lines 178-181): raise the
prepare advisory when the tail is one outcome short of `pattern` and no
prepare advisory is marked as sent. -/
def prepareStep (s : BettingStrategy) (w : World) (rl : List Outcome)
    (strat : Strategy) : BettingStrategy × World :=
  if pyTail rl (strat.pattern.length - 1) = strat.pattern.take (strat.pattern.length - 1)
      ∧ s.prepare_message_sent = false then
    let p := w.send Event.sendPrepare
    ({ s with prepare_message_sent := true, prepare_message_id := some p.2 }, p.1)
  else (s, w)

/-- The body of the entry confirmation (main.py lines 183-197): best-effort
delete of the prepare advisory, entry advisory, and the flag flip into the
active wager configuration. -/
def confirmEntry (s : BettingStrategy) (w : World) (strat : Strategy) :
    BettingStrategy × World :=
  let w1 := if s.prepare_message_id.getD 0 ≠ 0
            then w.deleteMsg (s.prepare_message_id.getD 0) else w
  let w2 := (w1.send (fun i => Event.sendEntry i strat.bet)).1
  ({ s with
      is_entry_allowed := false
      is_green := true
      is_gale_active := true
      current_strategy := some strat
      current_bet := some strat.bet
      prepare_message_sent := false
      prepare_message_id := none }, w2)

/-- The `for strategy in self.strategies` loop of `execute_strategy`
(main.py lines 175-198), with its early `break` on a confirmed entry. -/
def entryScan (rl : List Outcome) :
    List Strategy → BettingStrategy → World → BettingStrategy × World
  | [], s, w => (s, w)
  | strat :: rest, s, w =>
    let p := prepareStep s w rl strat
    if pyTail rl strat.pattern.length = strat.pattern
        ∧ p.1.prepare_message_sent = true then
      confirmEntry p.1 p.2 strat
    else
      entryScan rl rest p.1 p.2

/-- The `if not self.current_strategy` branch (main.py lines 200-208): delete
an orphaned prepare advisory. -/
def orphanPrepareCleanup (s : BettingStrategy) (w : World) :
    BettingStrategy × World :=
  if s.prepare_message_sent = true ∧ s.prepare_message_id.getD 0 ≠ 0 then
    ({ s with prepare_message_sent := false, prepare_message_id := none },
     w.deleteMsg (s.prepare_message_id.getD 0))
  else (s, w)

/-- The win resolution block (main.py lines 210-224): record the win, send the
win sticker then the scoreboard summary, delete gale advisories, reset. -/
def BettingStrategy.resolve_win (s : BettingStrategy) (w : World) :
    BettingStrategy × World :=
  let w1 := { w with sb := w.sb.record_win }
  let w2 := (w1.send Event.sendWinSticker).1
  let w3 := (w2.send (fun i => Event.sendScoreboard i w1.sb)).1
  let p := s.delete_gale_messages w3
  (p.1.reset_state true, p.2)

/-- The loss resolution block (main.py lines 237-243). -/
def BettingStrategy.resolve_loss (s : BettingStrategy) (w : World) :
    BettingStrategy × World :=
  let w1 := { w with sb := w.sb.record_loss }
  let w2 := (w1.send Event.sendLossSticker).1
  let w3 := (w2.send (fun i => Event.sendScoreboard i w1.sb)).1
  let p := s.delete_gale_messages w3
  (p.1.reset_state true, p.2)

/-- The gale escalation block (main.py lines 226-235). -/
def BettingStrategy.galeStep (s : BettingStrategy) (w : World) :
    BettingStrategy × World :=
  let gc := s.gale_count + 1
  let p := w.send (fun i => Event.sendGale i gc)
  let ids := if p.2 ≠ 0 then s.gale_message_ids ++ [p.2] else s.gale_message_ids
  let s1 := { s with gale_count := gc, gale_message_ids := ids }
  if s.max_gales ≤ gc then
    ({ s1 with is_gale_active := false, is_red := true }, p.1)
  else (s1, p.1)

/-- `BettingStrategy.execute_strategy(results_list)` (main.py lines 165-243),
as a pure transformer of the session state and the ambient world. -/
def BettingStrategy.execute_strategy (s : BettingStrategy) (w : World)
    (rl : List Outcome) : BettingStrategy × World :=
  if s.stop_requested = true then (s, w)
  else if s.wait_after_gale = true then ({ s with wait_after_gale := false }, w)
  else if s.is_entry_allowed = true then entryScan rl s.strategies s w
  else if s.current_strategy = none then orphanPrepareCleanup s w
  else if rl.getLast? = s.current_bet ∧ s.is_green = true then s.resolve_win w
  else if rl.getLast? = some Outcome.T ∧ s.is_green = true then s.resolve_win w
  else if rl.getLast? ≠ s.current_bet ∧ s.is_green = true ∧ s.is_gale_active = true then
    s.galeStep w
  else if s.is_red = true then s.resolve_loss w
  else (s, w)

/-- Feed a sequence of fetched histories to `execute_strategy` one call at a
time (as the driver loop does on successive changed batches). -/
def runStrategy : BettingStrategy → World → List (List Outcome) →
    BettingStrategy × World
  | s, w, [] => (s, w)
  | s, w, rl :: rest =>
    let p := s.execute_strategy w rl
    runStrategy p.1 p.2 rest

/-- First catalog rule whose full pattern matches the tail of the history, in
catalog order (the rule `execute_strategy`'s loop would confirm first). -/
def firstFullMatch (strats : List Strategy) (rl : List Outcome) :
    Option Strategy :=
  strats.find? (fun st => decide (pyTail rl st.pattern.length = st.pattern))

/-- The strategy catalog configured in `main` (main.py lines 424-429). -/
def mainStrategies : List Strategy :=
  [{ pattern := [Outcome.P, Outcome.P, Outcome.P], bet := Outcome.B },
   { pattern := [Outcome.B, Outcome.B, Outcome.B], bet := Outcome.P },
   { pattern := [Outcome.B, Outcome.B, Outcome.P], bet := Outcome.P },
   { pattern := [Outcome.P, Outcome.P, Outcome.B], bet := Outcome.B }]

/-- The state carried across iterations of `run_bot_loop` (main.py lines
482-510): the last seen batch, the `can_check_patterns` gate, the strategy
object and the ambient world. -/
structure LoopState where
  prev_results : List Outcome
  can_check_patterns : Bool
  strat : BettingStrategy
  world : World
deriving DecidableEq, Repr

/-- One iteration of `run_bot_loop` on a successfully fetched batch.  The
second component lists the argument of every `execute_strategy` invocation
made during the iteration (the empty list when the strategy is not invoked). -/
def loopStep (required : Nat) (st : LoopState) (batch : List Outcome) :
    LoopState × List (List Outcome) :=
  if st.strat.stop_requested = true then (st, [])
  else if batch = [] then (st, [])
  else if st.prev_results = [] ∨ batch ≠ st.prev_results then
    let can := st.can_check_patterns || decide (required ≤ batch.length)
    if can = true then
      let p := st.strat.execute_strategy st.world batch
      ({ prev_results := batch, can_check_patterns := can,
         strat := p.1, world := p.2 }, [batch])
    else
      ({ st with prev_results := batch, can_check_patterns := can }, [])
  else (st, [])

/-- A one-rule catalog (the spec's Scenario A/B/C catalog). -/
def oneRule : List Strategy :=
  [{ pattern := [Outcome.P, Outcome.P, Outcome.P], bet := Outcome.B }]

/-- A session that has just confirmed an entry on `P,P,P` betting `B`. -/
def activeSession : BettingStrategy :=
  { BettingStrategy.init mainStrategies 5 with
    is_entry_allowed := false
    is_green := true
    is_gale_active := true
    current_strategy := some { pattern := [Outcome.P, Outcome.P, Outcome.P], bet := Outcome.B }
    current_bet := some Outcome.B }

/-- A session that has reached the gale cap (`is_red` set, gale advisories 3
and 4 outstanding), with `max_gales = 2`. -/
def exhaustedSession : BettingStrategy :=
  { BettingStrategy.init oneRule 2 with
    is_entry_allowed := false
    is_green := true
    is_gale_active := false
    is_red := true
    current_strategy := some { pattern := [Outcome.P, Outcome.P, Outcome.P], bet := Outcome.B }
    current_bet := some Outcome.B
    gale_count := 2
    gale_message_ids := [3, 4] }

/-- An idle session with a pending prepare advisory (message id 1). -/
def preparedSession : BettingStrategy :=
  { BettingStrategy.init mainStrategies 5 with
    prepare_message_sent := true
    prepare_message_id := some 1 }

/-- A driver-loop state that has already seen the batch `[P,P,P]` and has
pattern checking enabled. -/
def loopStateC9 : LoopState :=
  { prev_results := [Outcome.P, Outcome.P, Outcome.P]
    can_check_patterns := true
    strat := BettingStrategy.init mainStrategies 5
    world := World.init }

/-- One scoreboard mutation: exactly the two mutators the class exposes. -/
inductive SbOp where
  | win
  | loss
deriving DecidableEq, Repr

def applySbOp (sb : Scoreboard) : SbOp → Scoreboard
  | SbOp.win => sb.record_win
  | SbOp.loss => sb.record_loss

/-- Run a sequence of `record_win`/`record_loss` calls on a fresh scoreboard. -/
def runSbOps (ops : List SbOp) : Scoreboard := ops.foldl applySbOp Scoreboard.init

lemma runSbOps_total_aux : ∀ (ops : List SbOp) (sb : Scoreboard),
    sb.total_attempts = sb.wins + sb.losses →
    (ops.foldl applySbOp sb).total_attempts =
      (ops.foldl applySbOp sb).wins + (ops.foldl applySbOp sb).losses
  | [], _, h => h
  | op :: rest, sb, h => by
    cases op <;>
      exact runSbOps_total_aux rest _
        (by simp [applySbOp, Scoreboard.record_win, Scoreboard.record_loss]; omega)

lemma runSbOps_append (ops : List SbOp) (op : SbOp) :
    runSbOps (ops ++ [op]) = applySbOp (runSbOps ops) op := by
  simp [runSbOps, List.foldl_append]

/-- Claim C7: starting from a fresh scoreboard, every sequence of
`record_win`/`record_loss` calls keeps all four counters non-negative,
keeps `wins`, `losses` and `total_attempts` monotonically non-decreasing,
maintains `total_attempts = wins + losses`, and `consecutive_wins` becomes
0 exactly on a recorded loss and increments on a recorded win. -/
theorem scoreboard_counters_invariant (ops : List SbOp) (op : SbOp) :
    0 ≤ (runSbOps ops).wins ∧ 0 ≤ (runSbOps ops).losses ∧
    0 ≤ (runSbOps ops).consecutive_wins ∧ 0 ≤ (runSbOps ops).total_attempts ∧
    (runSbOps ops).total_attempts = (runSbOps ops).wins + (runSbOps ops).losses ∧
    (runSbOps ops).wins ≤ (runSbOps (ops ++ [op])).wins ∧
    (runSbOps ops).losses ≤ (runSbOps (ops ++ [op])).losses ∧
    (runSbOps ops).total_attempts ≤ (runSbOps (ops ++ [op])).total_attempts ∧
    (runSbOps (ops ++ [SbOp.loss])).consecutive_wins = 0 ∧
    (runSbOps (ops ++ [SbOp.win])).consecutive_wins
      = (runSbOps ops).consecutive_wins + 1 := by
  refine ⟨Nat.zero_le _, Nat.zero_le _, Nat.zero_le _, Nat.zero_le _,
    runSbOps_total_aux ops Scoreboard.init rfl, ?_, ?_, ?_, ?_, ?_⟩ <;>
    rw [runSbOps_append] <;>
    cases op <;>
    simp [applySbOp, Scoreboard.record_win, Scoreboard.record_loss]

/-- Claim C8: the assertivity rate is 0 when `total_attempts = 0` and
otherwise `wins / total_attempts * 100` rounded to two decimal places
(idealized over the rationals); it is never negative. -/
theorem assertivity_rate_formula (sb : Scoreboard) :
    (sb.total_attempts = 0 → sb.calculate_assertivity_rate = 0) ∧
    (sb.total_attempts ≠ 0 →
      sb.calculate_assertivity_rate
        = ((round ((sb.wins : ℚ) / (sb.total_attempts : ℚ) * 100 * 100) : ℤ) : ℚ) / 100) ∧
    0 ≤ sb.calculate_assertivity_rate := by
  refine ⟨fun h => by simp [Scoreboard.calculate_assertivity_rate, h],
    fun h => by simp [Scoreboard.calculate_assertivity_rate, h, round2], ?_⟩
  unfold Scoreboard.calculate_assertivity_rate round2
  split_ifs with h
  · exact le_refl 0
  · apply div_nonneg _ (by norm_num)
    have hx : (0 : ℚ) ≤ (sb.wins : ℚ) / (sb.total_attempts : ℚ) * 100 * 100 + 1 / 2 := by
      positivity
    rw [round_eq]
    exact_mod_cast Int.floor_nonneg.mpr hx

/-- Witness for C8 at two concrete scoreboards. -/
theorem assertivity_rate_formula_witness :
    Scoreboard.init.calculate_assertivity_rate = 0 ∧
    (Scoreboard.mk 1 2 1 3).calculate_assertivity_rate
      = ((round (((1 : Nat) : ℚ) / ((3 : Nat) : ℚ) * 100 * 100) : ℤ) : ℚ) / 100 :=
  ⟨(assertivity_rate_formula Scoreboard.init).1 rfl,
   (assertivity_rate_formula (Scoreboard.mk 1 2 1 3)).2.1 (by decide)⟩

/-- Claim C6: a batch structurally equal to the previously seen one leaves
the whole loop state (strategy, scoreboard, world) unchanged and invokes the
strategy zero times; more generally the same batch delivered twice in a row
is a no-op the second time. -/
theorem duplicate_batch_noop (required : Nat) (st : LoopState) (b : List Outcome) :
    (b = st.prev_results → loopStep required st b = (st, [])) ∧
    loopStep required ((loopStep required st b).1) b
      = ((loopStep required st b).1, []) := by
  have base : ∀ (st' : LoopState), b = st'.prev_results →
      loopStep required st' b = (st', []) := by
    intro st' hb
    unfold loopStep
    split_ifs with h1 h2 h3
    · rfl
    · rfl
    · exfalso
      rcases h3 with h3 | h3
      · exact h2 (hb.trans h3)
      · exact h3 hb
    · rfl
  refine ⟨base st, ?_⟩
  by_cases h1 : st.strat.stop_requested = true
  · have e1 : loopStep required st b = (st, []) := by
      unfold loopStep; rw [if_pos h1]
    rw [e1]
    unfold loopStep; rw [if_pos h1]
  by_cases h2 : b = []
  · have e1 : loopStep required st b = (st, []) := by
      unfold loopStep; rw [if_neg h1, if_pos h2]
    rw [e1]
    unfold loopStep; rw [if_neg h1, if_pos h2]
  by_cases h3 : st.prev_results = [] ∨ b ≠ st.prev_results
  · have hprev : ((loopStep required st b).1).prev_results = b := by
      unfold loopStep
      rw [if_neg h1, if_neg h2, if_pos h3]
      by_cases h4 : (st.can_check_patterns || decide (required ≤ b.length)) = true
      · rw [if_pos h4]
      · rw [if_neg h4]
    exact base _ hprev.symm
  · push_neg at h3
    have e1 : loopStep required st b = (st, []) := base st h3.2
    rw [e1]
    exact base st h3.2

/-- Witness for C6: a repeated batch is dropped by the dedupe gate. -/
theorem duplicate_batch_noop_witness :
    loopStep 3 loopStateC9 [Outcome.P, Outcome.P, Outcome.P] = (loopStateC9, []) :=
  (duplicate_batch_noop 3 loopStateC9 [Outcome.P, Outcome.P, Outcome.P]).1 rfl

/-- Claim C9 counterexample: from a state whose last seen batch was `[P,P,P]`,
the changed batch `[P,B,B]` carries two newly appended outcomes, yet the loop
makes exactly one `execute_strategy` invocation, with the entire batch as its
argument — it does not feed the two new outcomes individually. -/
theorem driver_feeds_whole_batch_once :
    (loopStep 3 loopStateC9 [Outcome.P, Outcome.B, Outcome.B]).2
      = [[Outcome.P, Outcome.B, Outcome.B]] ∧
    ((loopStep 3 loopStateC9 [Outcome.P, Outcome.B, Outcome.B]).2).length = 1 ∧
    ¬ ((loopStep 3 loopStateC9 [Outcome.P, Outcome.B, Outcome.B]).2).length = 2 := by
  decide

/-- Claim C9 (amended): on a changed non-empty fetched batch (with pattern
checking enabled or enough results accumulated), the driver invokes
`execute_strategy` exactly once, passing the entire batch. -/
theorem changed_batch_single_invocation (required : Nat) (st : LoopState)
    (b : List Outcome)
    (h1 : st.strat.stop_requested = false) (h2 : b ≠ [])
    (h3 : st.prev_results = [] ∨ b ≠ st.prev_results)
    (h4 : st.can_check_patterns = true ∨ required ≤ b.length) :
    (loopStep required st b).2 = [b] := by
  unfold loopStep
  rw [if_neg (by simp [h1]), if_neg h2, if_pos h3]
  have hcan : (st.can_check_patterns || decide (required ≤ b.length)) = true := by
    rcases h4 with h | h <;> simp [h]
  simp only [hcan, if_true]

/-- Witness for C9 (amended) at a concrete loop state and batch. -/
theorem changed_batch_single_invocation_witness :
    (loopStep 3 loopStateC9 [Outcome.B, Outcome.B, Outcome.B]).2
      = [[Outcome.B, Outcome.B, Outcome.B]] :=
  changed_batch_single_invocation 3 loopStateC9 [Outcome.B, Outcome.B, Outcome.B]
    rfl (by decide) (by decide) (Or.inl rfl)

/-- Claim C10: the `can_check_patterns` gate never goes back from true to
false, and while it is false the strategy can only be invoked on a batch that
is non-empty, differs from the previous batch, and has length at least
`initial_results_required`. -/
theorem pattern_gate_invariant (required : Nat) (st : LoopState) (b : List Outcome) :
    (st.can_check_patterns = true →
      ((loopStep required st b).1).can_check_patterns = true) ∧
    (st.can_check_patterns = false → (loopStep required st b).2 ≠ [] →
      b ≠ [] ∧ b ≠ st.prev_results ∧ required ≤ b.length) := by
  constructor
  · intro hc
    unfold loopStep
    by_cases h1 : st.strat.stop_requested = true
    · rw [if_pos h1]; exact hc
    rw [if_neg h1]
    by_cases h2 : b = []
    · rw [if_pos h2]; exact hc
    rw [if_neg h2]
    by_cases h3 : st.prev_results = [] ∨ b ≠ st.prev_results
    · rw [if_pos h3]
      have h4 : (st.can_check_patterns || decide (required ≤ b.length)) = true := by
        simp [hc]
      rw [if_pos h4]
      exact h4
    · rw [if_neg h3]; exact hc
  · intro hc hcalls
    unfold loopStep at hcalls
    by_cases h1 : st.strat.stop_requested = true
    · rw [if_pos h1] at hcalls; exact absurd rfl hcalls
    rw [if_neg h1] at hcalls
    by_cases h2 : b = []
    · rw [if_pos h2] at hcalls; exact absurd rfl hcalls
    rw [if_neg h2] at hcalls
    by_cases h3 : st.prev_results = [] ∨ b ≠ st.prev_results
    · rw [if_pos h3] at hcalls
      by_cases h4 : (st.can_check_patterns || decide (required ≤ b.length)) = true
      · refine ⟨h2, ?_, ?_⟩
        · rcases h3 with h3 | h3
          · rw [h3]; exact h2
          · exact h3
        · rw [hc, Bool.false_or] at h4
          exact of_decide_eq_true h4
      · rw [if_neg h4] at hcalls; exact absurd rfl hcalls
    · rw [if_neg h3] at hcalls; exact absurd rfl hcalls

/-- Witness for C10: gate stays enabled after a step, and a strategy
invocation from a disabled gate forces a changed, long-enough batch. -/
theorem pattern_gate_invariant_witness :
    ((loopStep 3 loopStateC9 [Outcome.B, Outcome.B, Outcome.B]).1).can_check_patterns
      = true ∧
    ([Outcome.P, Outcome.P, Outcome.P] ≠ ([] : List Outcome) ∧
      [Outcome.P, Outcome.P, Outcome.P]
        ≠ (LoopState.mk [] false (BettingStrategy.init mainStrategies 5)
            World.init).prev_results ∧
      3 ≤ [Outcome.P, Outcome.P, Outcome.P].length) :=
  ⟨(pattern_gate_invariant 3 loopStateC9 [Outcome.B, Outcome.B, Outcome.B]).1 rfl,
   (pattern_gate_invariant 3
      (LoopState.mk [] false (BettingStrategy.init mainStrategies 5) World.init)
      [Outcome.P, Outcome.P, Outcome.P]).2 rfl (by decide)⟩

lemma prepareStep_sb (s : BettingStrategy) (w : World) (rl : List Outcome)
    (strat : Strategy) : ((prepareStep s w rl strat).2).sb = w.sb := by
  unfold prepareStep
  split_ifs <;> rfl

lemma confirmEntry_sb (s : BettingStrategy) (w : World) (strat : Strategy) :
    ((confirmEntry s w strat).2).sb = w.sb := by
  unfold confirmEntry World.deleteMsg World.send
  split_ifs <;> rfl

lemma entryScan_sb (rl : List Outcome) :
    ∀ (strats : List Strategy) (s : BettingStrategy) (w : World),
      ((entryScan rl strats s w).2).sb = w.sb
  | [], _, _ => rfl
  | strat :: rest, s, w => by
    simp only [entryScan]
    split_ifs with h
    · rw [confirmEntry_sb, prepareStep_sb]
    · rw [entryScan_sb rl rest _ _, prepareStep_sb]

lemma orphanPrepareCleanup_sb (s : BettingStrategy) (w : World) :
    ((orphanPrepareCleanup s w).2).sb = w.sb := by
  unfold orphanPrepareCleanup World.deleteMsg
  split_ifs <;> rfl

lemma galeStep_sb (s : BettingStrategy) (w : World) :
    ((s.galeStep w).2).sb = w.sb := by
  simp only [BettingStrategy.galeStep, World.send]
  split_ifs <;> rfl

/-- After any step that changed `total_attempts` (a win or loss was recorded),
the session is left in cooldown with no stop requested. -/
lemma resolution_sets_cooldown (s : BettingStrategy) (w : World) (rl : List Outcome)
    (h : ((s.execute_strategy w rl).2).sb.total_attempts ≠ w.sb.total_attempts) :
    (s.execute_strategy w rl).1.wait_after_gale = true ∧
    (s.execute_strategy w rl).1.stop_requested = false := by
  unfold BettingStrategy.execute_strategy at h ⊢
  by_cases h1 : s.stop_requested = true
  · rw [if_pos h1] at h; exact absurd rfl h
  rw [if_neg h1] at h ⊢
  by_cases h2 : s.wait_after_gale = true
  · rw [if_pos h2] at h; exact absurd rfl h
  rw [if_neg h2] at h ⊢
  by_cases h3 : s.is_entry_allowed = true
  · rw [if_pos h3] at h
    rw [entryScan_sb] at h
    exact absurd rfl h
  rw [if_neg h3] at h ⊢
  by_cases h4 : s.current_strategy = none
  · rw [if_pos h4] at h
    rw [orphanPrepareCleanup_sb] at h
    exact absurd rfl h
  rw [if_neg h4] at h ⊢
  by_cases h5 : rl.getLast? = s.current_bet ∧ s.is_green = true
  · rw [if_pos h5]
    refine ⟨rfl, ?_⟩
    simp only [BettingStrategy.resolve_win, BettingStrategy.delete_gale_messages,
      BettingStrategy.reset_state]
    simpa using h1
  rw [if_neg h5] at h ⊢
  by_cases h6 : rl.getLast? = some Outcome.T ∧ s.is_green = true
  · rw [if_pos h6]
    refine ⟨rfl, ?_⟩
    simp only [BettingStrategy.resolve_win, BettingStrategy.delete_gale_messages,
      BettingStrategy.reset_state]
    simpa using h1
  rw [if_neg h6] at h ⊢
  by_cases h7 : rl.getLast? ≠ s.current_bet ∧ s.is_green = true ∧ s.is_gale_active = true
  · rw [if_pos h7] at h
    rw [galeStep_sb] at h
    exact absurd rfl h
  rw [if_neg h7] at h ⊢
  by_cases h8 : s.is_red = true
  · rw [if_pos h8]
    refine ⟨rfl, ?_⟩
    simp only [BettingStrategy.resolve_loss, BettingStrategy.delete_gale_messages,
      BettingStrategy.reset_state]
    simpa using h1
  · rw [if_neg h8] at h
    exact absurd rfl h

/-- Claim C5: after any resolution (the scoreboard's attempt counter moved),
the very next processed outcome changes nothing except clearing the one-cycle
suppression flag: no prepare advisory, no entry, no scoreboard mutation, no
event at all. -/
theorem cooldown_suppression (s : BettingStrategy) (w : World) (rl rl2 : List Outcome)
    (h : ((s.execute_strategy w rl).2).sb.total_attempts ≠ w.sb.total_attempts) :
    ((s.execute_strategy w rl).1).execute_strategy ((s.execute_strategy w rl).2) rl2
      = ({ (s.execute_strategy w rl).1 with wait_after_gale := false },
         (s.execute_strategy w rl).2) := by
  obtain ⟨k1, k2⟩ := resolution_sets_cooldown s w rl h
  revert k1 k2
  generalize s.execute_strategy w rl = p
  obtain ⟨s1, w1⟩ := p
  dsimp only
  intro k1 k2
  unfold BettingStrategy.execute_strategy
  rw [if_neg (by simp [k2]), if_pos k1]

/-- Witness for C5: a concrete win resolution (tie on an active wager)
followed by a history that would fully match the catalog; the next call
changes nothing but the suppression flag. -/
theorem cooldown_suppression_witness :
    ((activeSession.execute_strategy World.init [Outcome.T]).1).execute_strategy
        ((activeSession.execute_strategy World.init [Outcome.T]).2)
        [Outcome.P, Outcome.P, Outcome.P]
      = ({ (activeSession.execute_strategy World.init [Outcome.T]).1 with
            wait_after_gale := false },
         (activeSession.execute_strategy World.init [Outcome.T]).2) :=
  cooldown_suppression activeSession World.init [Outcome.T]
    [Outcome.P, Outcome.P, Outcome.P] (by decide)

/-- Claim C4: with a wager active (`current_strategy` set, `is_green`), a Tie
as the next outcome always resolves the cycle as a win — the scoreboard
records a win and the session is reset into cooldown — whatever the active
rule's response symbol is. -/
theorem tie_protection (s : BettingStrategy) (w : World) (rl : List Outcome)
    (h1 : s.stop_requested = false) (h2 : s.wait_after_gale = false)
    (h3 : s.is_entry_allowed = false) (h4 : s.current_strategy ≠ none)
    (h5 : s.is_green = true) (h6 : rl.getLast? = some Outcome.T) :
    s.execute_strategy w rl = s.resolve_win w ∧
    ((s.execute_strategy w rl).2).sb = w.sb.record_win ∧
    (s.execute_strategy w rl).1 = s.reset_state true := by
  have hx : s.execute_strategy w rl = s.resolve_win w := by
    unfold BettingStrategy.execute_strategy
    rw [if_neg (by simp [h1]), if_neg (by simp [h2]), if_neg (by simp [h3]), if_neg h4]
    by_cases hb : rl.getLast? = s.current_bet
    · rw [if_pos ⟨hb, h5⟩]
    · rw [if_neg (fun hc => hb hc.1), if_pos ⟨h6, h5⟩]
  refine ⟨hx, ?_, ?_⟩
  · rw [hx]
    simp only [BettingStrategy.resolve_win, BettingStrategy.delete_gale_messages,
      World.send]
  · rw [hx]
    rfl

/-- Witness for C4: a concrete active session whose bet is `B` resolves as a
win on a Tie. -/
theorem tie_protection_witness :
    activeSession.execute_strategy World.init
        [Outcome.P, Outcome.P, Outcome.P, Outcome.T]
      = activeSession.resolve_win World.init ∧
    ((activeSession.execute_strategy World.init
        [Outcome.P, Outcome.P, Outcome.P, Outcome.T]).2).sb
      = World.init.sb.record_win ∧
    (activeSession.execute_strategy World.init
        [Outcome.P, Outcome.P, Outcome.P, Outcome.T]).1
      = activeSession.reset_state true :=
  tie_protection activeSession World.init
    [Outcome.P, Outcome.P, Outcome.P, Outcome.T]
    rfl rfl rfl (by decide) rfl rfl

/-- Claim C1 counterexample: run the concrete Scenario-B prefix (entry on
`P,P,P`, two losing gales so the cap is reached and `is_red` is set), then
deliver the outcome `B`, which equals the active rule's response.  The code
records a WIN, not the loss the claim promises for every next outcome. -/
theorem exhausted_next_outcome_can_win :
    ((runStrategy (BettingStrategy.init oneRule 2) World.init
        [[Outcome.P, Outcome.P, Outcome.P],
         [Outcome.P, Outcome.P, Outcome.P, Outcome.P],
         [Outcome.P, Outcome.P, Outcome.P, Outcome.P, Outcome.P]]).1).is_red = true ∧
    ((runStrategy (BettingStrategy.init oneRule 2) World.init
        [[Outcome.P, Outcome.P, Outcome.P],
         [Outcome.P, Outcome.P, Outcome.P, Outcome.P],
         [Outcome.P, Outcome.P, Outcome.P, Outcome.P, Outcome.P],
         [Outcome.P, Outcome.P, Outcome.P, Outcome.P, Outcome.P, Outcome.B]]).2).sb.wins
      = 1 ∧
    ((runStrategy (BettingStrategy.init oneRule 2) World.init
        [[Outcome.P, Outcome.P, Outcome.P],
         [Outcome.P, Outcome.P, Outcome.P, Outcome.P],
         [Outcome.P, Outcome.P, Outcome.P, Outcome.P, Outcome.P],
         [Outcome.P, Outcome.P, Outcome.P, Outcome.P, Outcome.P, Outcome.B]]).2).sb.losses
      = 0 := by
  decide

/-- Claim C1 (amended): in the Exhausted configuration (`is_red` set, gale
no longer active, a rule still loaded), a next outcome that neither equals
the active rule's response nor is a Tie records a loss, emits the loss
notification followed by the scoreboard summary, retracts the outstanding
gale advisories, and resets the session into cooldown. -/
theorem exhausted_mismatch_records_loss (s : BettingStrategy) (w : World)
    (rl : List Outcome) (o : Outcome)
    (h1 : s.stop_requested = false) (h2 : s.wait_after_gale = false)
    (h3 : s.is_entry_allowed = false) (h4 : s.current_strategy ≠ none)
    (h5 : s.is_red = true) (h6 : s.is_gale_active = false)
    (h7 : rl.getLast? = some o) (h8 : some o ≠ s.current_bet)
    (h9 : o ≠ Outcome.T) :
    s.execute_strategy w rl = s.resolve_loss w ∧
    ((s.execute_strategy w rl).2).sb = w.sb.record_loss ∧
    ((s.execute_strategy w rl).2).log
      = w.log ++ [Event.sendLossSticker w.nextId,
          Event.sendScoreboard (w.nextId + 1) w.sb.record_loss]
        ++ s.gale_message_ids.map Event.deleteMessage ∧
    (s.execute_strategy w rl).1 = s.reset_state true := by
  have hx : s.execute_strategy w rl = s.resolve_loss w := by
    unfold BettingStrategy.execute_strategy
    rw [if_neg (by simp [h1]), if_neg (by simp [h2]), if_neg (by simp [h3]), if_neg h4,
      if_neg (by rintro ⟨hc, -⟩; rw [h7] at hc; exact h8 hc),
      if_neg (by rintro ⟨hc, -⟩; rw [h7] at hc; exact h9 (Option.some.inj hc)),
      if_neg (by rintro ⟨-, -, hg⟩; rw [h6] at hg; cases hg),
      if_pos h5]
  refine ⟨hx, ?_, ?_, ?_⟩
  · rw [hx]
    simp only [BettingStrategy.resolve_loss, BettingStrategy.delete_gale_messages,
      World.send]
  · rw [hx]
    simp [BettingStrategy.resolve_loss, BettingStrategy.delete_gale_messages,
      World.send]
  · rw [hx]
    rfl

/-- Witness for C1 (amended): the concrete exhausted session, next outcome
`P` (neither the response `B` nor a Tie), records a loss. -/
theorem exhausted_mismatch_records_loss_witness :
    ((exhaustedSession.execute_strategy World.init
        [Outcome.P, Outcome.P, Outcome.P, Outcome.P, Outcome.P, Outcome.P]).2).sb
      = World.init.sb.record_loss :=
  (exhausted_mismatch_records_loss exhaustedSession World.init
    [Outcome.P, Outcome.P, Outcome.P, Outcome.P, Outcome.P, Outcome.P] Outcome.P
    rfl rfl rfl (by decide) rfl rfl rfl (by decide) (by decide)).2.1

/-- Claim C2 counterexample: in the Idle state with the configured catalog,
the history `[B,B,P]` fully matches the third rule, yet processing it leaves
the session unchanged — no entry is confirmed, because the entry branch also
demands a prepare advisory to be pending and the near-match check compares
the tail against the pattern's FIRST two symbols (`[B,B]`), not its last two. -/
theorem full_match_without_prepare_no_entry :
    firstFullMatch mainStrategies [Outcome.B, Outcome.B, Outcome.P]
      = some { pattern := [Outcome.B, Outcome.B, Outcome.P], bet := Outcome.P } ∧
    (BettingStrategy.init mainStrategies 5).execute_strategy World.init
        [Outcome.B, Outcome.B, Outcome.P]
      = (BettingStrategy.init mainStrategies 5, World.init) ∧
    ((BettingStrategy.init mainStrategies 5).execute_strategy World.init
        [Outcome.B, Outcome.B, Outcome.P]).1.current_strategy = none := by
  decide

lemma prepareStep_of_sent (s : BettingStrategy) (w : World) (rl : List Outcome)
    (strat : Strategy) (hs : s.prepare_message_sent = true) :
    prepareStep s w rl strat = (s, w) := by
  unfold prepareStep
  rw [if_neg]
  rintro ⟨-, hc⟩
  rw [hs] at hc
  cases hc

/-- With a prepare advisory already pending, the scan confirms the first rule
whose full pattern matches the tail. -/
lemma entryScan_pending (rl : List Outcome) :
    ∀ (strats : List Strategy) (s : BettingStrategy) (w : World),
      s.prepare_message_sent = true →
      ∀ r, strats.find? (fun st => decide (pyTail rl st.pattern.length = st.pattern))
            = some r →
      entryScan rl strats s w = confirmEntry s w r
  | [], s, w, hs, r, hr => by simp at hr
  | strat :: rest, s, w, hs, r, hr => by
    simp only [entryScan, prepareStep_of_sent s w rl strat hs]
    by_cases hm : pyTail rl strat.pattern.length = strat.pattern
    · have hre : r = strat := by
        rw [List.find?_cons_of_pos _ (by simpa using hm)] at hr
        exact (Option.some.inj hr).symm
      subst hre
      rw [if_pos ⟨hm, hs⟩]
    · rw [List.find?_cons_of_neg _ (by simpa using hm)] at hr
      rw [if_neg (fun hc => hm hc.1)]
      exact entryScan_pending rl rest s w hs r hr

/-- Claim C2 (amended): while entries are allowed and a prepare advisory is
pending, a history whose tail fully matches a catalog rule confirms the entry
on the first such rule: the pending prepare advisory is deleted, the entry
advisory naming the rule's response is sent, the rule becomes the active one,
and the stage counter stays at 0. -/
theorem entry_confirmed_with_pending_prepare (s : BettingStrategy) (w : World)
    (rl : List Outcome) (r : Strategy) (pid : Nat)
    (h1 : s.stop_requested = false) (h2 : s.wait_after_gale = false)
    (h3 : s.is_entry_allowed = true) (h4 : s.prepare_message_sent = true)
    (h5 : s.prepare_message_id = some pid) (h6 : pid ≠ 0)
    (h7 : firstFullMatch s.strategies rl = some r) (h8 : s.gale_count = 0) :
    (s.execute_strategy w rl).1.is_entry_allowed = false ∧
    (s.execute_strategy w rl).1.is_green = true ∧
    (s.execute_strategy w rl).1.is_gale_active = true ∧
    (s.execute_strategy w rl).1.current_strategy = some r ∧
    (s.execute_strategy w rl).1.current_bet = some r.bet ∧
    (s.execute_strategy w rl).1.prepare_message_sent = false ∧
    (s.execute_strategy w rl).1.prepare_message_id = none ∧
    (s.execute_strategy w rl).1.gale_count = 0 ∧
    ((s.execute_strategy w rl).2).sb = w.sb ∧
    ((s.execute_strategy w rl).2).log
      = w.log ++ [Event.deleteMessage pid, Event.sendEntry w.nextId r.bet] := by
  have hx : s.execute_strategy w rl = confirmEntry s w r := by
    unfold BettingStrategy.execute_strategy
    rw [if_neg (by simp [h1]), if_neg (by simp [h2]), if_pos h3]
    exact entryScan_pending rl s.strategies s w h4 r h7
  rw [hx]
  unfold confirmEntry
  rw [h5]
  simp [World.deleteMsg, World.send, h6, h8]

/-- Witness for C2 (amended): with a pending prepare advisory (id 1), the
history `[B,B,P]` confirms the entry on the third catalog rule. -/
theorem entry_confirmed_with_pending_prepare_witness :
    (preparedSession.execute_strategy
        (World.mk Scoreboard.init 2 [Event.sendPrepare 1])
        [Outcome.B, Outcome.B, Outcome.P]).1.current_strategy
      = some { pattern := [Outcome.B, Outcome.B, Outcome.P], bet := Outcome.P } :=
  (entry_confirmed_with_pending_prepare preparedSession
    (World.mk Scoreboard.init 2 [Event.sendPrepare 1])
    [Outcome.B, Outcome.B, Outcome.P]
    { pattern := [Outcome.B, Outcome.B, Outcome.P], bet := Outcome.P } 1
    rfl rfl rfl rfl rfl (by decide) (by decide) rfl).2.2.2.1

/-- Claim C3, code evaluated at its failing input: with the single-rule
catalog, `[B,P,P]` raises a prepare advisory (message id 1); the next history
`[P,P,B]` does not complete the pattern, yet the advisory is NOT retracted —
the session still marks it pending and the log shows no deletion.  The
cleanup branch of `execute_strategy` (main.py lines 200-208) requires
`is_entry_allowed = false` with no current strategy, a combination the
machine never reaches. -/
theorem prepare_not_retracted_on_failed_pattern :
    ((runStrategy (BettingStrategy.init oneRule 5) World.init
        [[Outcome.B, Outcome.P, Outcome.P],
         [Outcome.P, Outcome.P, Outcome.B]]).1).prepare_message_sent = true ∧
    ((runStrategy (BettingStrategy.init oneRule 5) World.init
        [[Outcome.B, Outcome.P, Outcome.P],
         [Outcome.P, Outcome.P, Outcome.B]]).1).prepare_message_id = some 1 ∧
    ((runStrategy (BettingStrategy.init oneRule 5) World.init
        [[Outcome.B, Outcome.P, Outcome.P],
         [Outcome.P, Outcome.P, Outcome.B]]).2).log = [Event.sendPrepare 1] := by
  decide
